import Mathlib

/-!
Shallow embedding of the `vscode-verilog-vga` extension.

Embedded from the sources:
  * `VGASimulatorPanel` (the unnamed panel file): webview message handling,
    `compileSources`, `initModule`, `startSimulation`, `stopSimulation`,
    `renderLoop`, `dispose`.
  * `src/verilator/compile.ts`: `compileVerilator`.

The simulation kernel itself (`sim/vga`, `sim/hdlwasm`, `sim/vxmlparser`,
`verilog.ts`) is imported by the panel but its code is not part of this
repository snapshot; those operations are modelled from the spec, and each
such definition says so in its doc comment.
-/

/-- Error kinds of the simulation kernel (spec section 7). -/
inductive SimError where
  | LoadError
  | BindError
  | ConvergenceError
  | DetectionTimeout
  | RuntimeFault
deriving DecidableEq

/-- Display text of an error, as it would appear in a thrown message. -/
def errText : SimError → String
  | .LoadError => "LoadError"
  | .BindError => "BindError"
  | .ConvergenceError => "ConvergenceError"
  | .DetectionTimeout => "DetectionTimeout"
  | .RuntimeFault => "RuntimeFault"

/-- Modelled from the spec: the combinational settling loop of `eval()` in the
Simulation Instance (`sim/hdlwasm` is not in the snapshot).  It repeatedly
applies the evaluation function of the compiled model until a fixpoint is reached,
bounded by an iteration cap; exceeding the cap yields `ConvergenceError`. -/
def evalSettle {α : Type} [DecidableEq α] (f : α → α) : Nat → α → Except SimError α
  | 0, _ => .error .ConvergenceError
  | n + 1, s => if f s = s then .ok s else evalSettle f n (f s)

/-- Fixture with an intentional combinational self-loop: an inverter feeding
itself, which has no fixpoint. -/
def selfLoopNot (b : Bool) : Bool := !b

/-- Signal-value cache lookup; a signal that was never written reads 0. -/
def lookupSig : List (String × Nat) → String → Nat
  | [], _ => 0
  | (q, w) :: t, p => if q = p then w else lookupSig t p

/-- Signal-value cache update: overwrite the entry when present, append
otherwise. -/
def setSig : List (String × Nat) → String → Nat → List (String × Nat)
  | [], p, v => [(p, v)]
  | (q, w) :: t, p, v => if q = p then (q, v) :: t else (q, w) :: setSig t p v

/-- Modelled from the spec: the compiled-model boundary plus the declared
signal widths (`sim/hdlwasm` is not in the snapshot).  `comb` is the
combinational update the kernel iterates to settle. -/
structure HDLDesign where
  width : String → Nat
  comb : List (String × Nat) → List (String × Nat)
  evalCap : Nat
  resetCycles : Nat
  hasReset : Bool

/-- Modelled from the spec: one running binding of a design to a compiled
model, holding the current signal-value cache. -/
structure SimInstance where
  design : HDLDesign
  values : List (String × Nat)

/-- Modelled from the spec: writes are masked/truncated to the declared bit width of the signal. -/
def setSignal (m : SimInstance) (p : String) (v : Nat) : SimInstance :=
  { m with values := setSig m.values p (v % 2 ^ m.design.width p) }

/-- Modelled from the spec: reads return the cached value of the signal. -/
def getSignal (m : SimInstance) (p : String) : Nat :=
  lookupSig m.values p

/-- Settle the combinational logic of the instance (spec `eval()`). -/
def evalInst (m : SimInstance) : Except SimError SimInstance :=
  (evalSettle m.design.comb m.design.evalCap m.values).map
    (fun vs => { m with values := vs })

/-- Modelled from the spec: `clockEdge(level)` sets the clock input to `level`
and then settles. -/
def clockEdge (m : SimInstance) (level : Nat) : Except SimError SimInstance :=
  evalInst (setSignal m "clk" level)

/-- One full clock cycle: a rising then a falling edge. -/
def clockCycle (m : SimInstance) : Except SimError SimInstance := do
  let m1 ← clockEdge m 1
  clockEdge m1 0

/-- Run a number of full clock cycles. -/
def iterCycles : Nat → SimInstance → Except SimError SimInstance
  | 0, m => .ok m
  | n + 1, m => do
      let m1 ← clockCycle m
      iterCycles n m1

/-- Modelled from the spec: `reset()` asserts the reset input (if present) for
a small fixed number of cycles, releases it, and settles (`resetModule` of
`sim/vga` is not in the snapshot). -/
def resetModule (m : SimInstance) : Except SimError SimInstance :=
  if m.design.hasReset then do
    let m1 := setSignal m "reset" 1
    let m2 ← iterCycles m.design.resetCycles m1
    let m3 := setSignal m2 "reset" 0
    evalInst m3
  else evalInst m

/-- A design resets deterministically: holding reset drives the signal state
to one canonical post-reset state from anywhere (the precondition named deterministic initial values in the spec). -/
def ResetConvergent (d : HDLDesign) : Prop :=
  ∃ r, ∀ vs, resetModule ⟨d, vs⟩ = .ok ⟨d, r⟩

/-- Interpretation of hsync/vsync assertion level (panel field and spec
section 3). -/
structure SyncPolarity where
  hsyncActiveLow : Bool
  vsyncActiveLow : Bool
deriving DecidableEq

/-- True when a sampled level sequence never toggles (all ones or all
zeros). -/
def noToggle (samples : List Bool) : Bool :=
  samples.all (fun b => b) || samples.all (fun b => !b)

/-- Modelled from the spec: per-signal polarity classification of the sampled
sync levels (`detectSyncPolarity` of `sim/vga` is not in the snapshot).  The
level occupying short bursts is active, so the signal is active-low exactly
when level 0 is in the minority; no toggling within the budget is a
`DetectionTimeout`, not a default guess. -/
def classifyPolarity (samples : List Bool) : Except SimError Bool :=
  if noToggle samples then .error .DetectionTimeout
  else .ok (decide (samples.count false < samples.count true))

/-- Modelled from the spec: polarity detection over the per-cycle samples of
the two synchronization signals gathered within the cycle budget. -/
def detectSyncPolarity (hsamples vsamples : List Bool) : Except SimError SyncPolarity :=
  match classifyPolarity hsamples, classifyPolarity vsamples with
  | .ok h, .ok v => .ok ⟨h, v⟩
  | .error e, _ => .error e
  | .ok _, .error e => .error e

/-- Fixed raster width (the `sim/vga` constant is not in the snapshot; the
value is the initial canvas size of the panel webview). -/
def VGA_WIDTH : Nat := 736

/-- Fixed raster height (the `sim/vga` constant is not in the snapshot; the
value is the initial canvas size of the panel webview). -/
def VGA_HEIGHT : Nat := 520

/-- Sampled outputs of the design for one cycle: raw sync levels and the color
channels already normalized to 8-bit range. -/
structure VGASample where
  hsync : Bool
  vsync : Bool
  red : Nat
  green : Nat
  blue : Nat

/-- Normalize a raw sync level by its polarity: the result is `true` when the
signal is asserted (active). -/
def normLevel (activeLow : Bool) (level : Bool) : Bool :=
  if activeLow then !level else level

/-- Write one RGBA8 pixel (alpha opaque) at byte index `idx`. -/
def writePixel (buf : List Nat) (idx r g b : Nat) : List Nat :=
  (((buf.set idx r).set (idx + 1) g).set (idx + 2) b).set (idx + 3) 255

/-- Raster-scan state of the frame renderer. -/
structure RenderSt where
  buf : List Nat
  col : Nat
  row : Nat
  prevH : Bool
  prevV : Bool

/-- Modelled from the spec: the cycle loop of the frame renderer
(`renderVGAFrame` of `sim/vga` is not in the snapshot).  Each cycle it reads
the design outputs, normalizes the sync levels by polarity, finishes the
frame on a vertical-sync active transition, advances the raster position on a
horizontal-sync active transition, samples one RGBA8 pixel inside the visible
window, and increments the column; running out of the safety cycle budget is a
`DetectionTimeout`. -/
def renderAux (trace : Nat → VGASample) (pol : SyncPolarity) :
    Nat → Nat → RenderSt → Except SimError (List Nat)
  | 0, _, _ => .error .DetectionTimeout
  | fuel + 1, i, st =>
    let s := trace i
    let hAct := normLevel pol.hsyncActiveLow s.hsync
    let vAct := normLevel pol.vsyncActiveLow s.vsync
    if vAct && !st.prevV then .ok st.buf
    else
      let col := if hAct && !st.prevH then 0 else st.col
      let row := if hAct && !st.prevH then st.row + 1 else st.row
      let buf :=
        if col < VGA_WIDTH ∧ row < VGA_HEIGHT then
          writePixel st.buf ((row * VGA_WIDTH + col) * 4)
            (s.red % 256) (s.green % 256) (s.blue % 256)
        else st.buf
      renderAux trace pol fuel (i + 1)
        { buf := buf, col := col + 1, row := row, prevH := hAct, prevV := vAct }

/-- Modelled from the spec: render exactly one frame into a fresh
`VGA_WIDTH * VGA_HEIGHT * 4`-byte buffer, stepping from the phase-locked
position through one vertical-sync active transition, with a safety cycle
ceiling. -/
def renderVGAFrame (trace : Nat → VGASample) (pol : SyncPolarity) (budget : Nat) :
    Except SimError (List Nat) :=
  renderAux trace pol budget 0
    { buf := List.replicate (VGA_WIDTH * VGA_HEIGHT * 4) 0,
      col := 0, row := 0, prevH := false, prevV := false }

/-- Messages the panel posts to its webview (embedded from the panel file). -/
inductive PanelMsg where
  | statusMsg (text : String)
  | errorPost (text : String)
  | framePost (width height : Nat) (pixels : List Nat)
  | warnPopup (count : Nat)
deriving DecidableEq

/-- Observable actions of a panel step: a posted message, the disposal of a
compiled module, or a run of sync-polarity detection. -/
inductive PanelAct where
  | post (m : PanelMsg)
  | disposeMod (id : Nat)
  | ranDetection
deriving DecidableEq

/-- State of `VGASimulatorPanel`: the bound module (`null` as `none`, live
modules named by numeric ids), the `running` flag, the `syncPolarity` field,
plus ghost bookkeeping — whether the current polarity value was derived by
detection for the current module, the ids of disposed modules, and the next
fresh module id. -/
structure PanelState where
  mod : Option Nat
  running : Bool
  polarityDerived : Bool
  syncPolarity : SyncPolarity
  disposedIds : List Nat
  nextId : Nat
deriving DecidableEq

/-- Freshly constructed panel: no module, not running, and the declared
default polarity value `{ hsyncActiveLow: false, vsyncActiveLow: false }`. -/
def initialPanel : PanelState :=
  { mod := none, running := false, polarityDerived := false,
    syncPolarity := ⟨false, false⟩, disposedIds := [], nextId := 0 }

/-- Embedded from `startSimulation`: a no-op unless a module is bound and the
loop is not already running. -/
def startSimulation (s : PanelState) : PanelState :=
  if s.mod = none ∨ s.running = true then s else { s with running := true }

/-- Embedded from `stopSimulation`: clear the running flag. -/
def stopSimulation (s : PanelState) : PanelState :=
  { s with running := false }

/-- Embedded from `initModule`, with the outcome of polarity detection given
as `det` (`none` meaning detection threw): dispose any previous module, bind a
fresh one, then reset / detect polarity / reset / skip to the frame boundary.
On a successful detection the `syncPolarity` field is assigned; when detection
throws, the assignment is skipped and the exception propagates to the caller.
Returns the new state and the recorded actions. -/
def initModuleStep (s : PanelState) (det : Option SyncPolarity) :
    PanelState × List PanelAct :=
  let s1 : PanelState :=
    match s.mod with
    | some i => { s with mod := none, disposedIds := i :: s.disposedIds }
    | none => s
  let acts1 : List PanelAct :=
    match s.mod with
    | some i => [.disposeMod i]
    | none => []
  let s2 : PanelState :=
    { s1 with mod := some s1.nextId, nextId := s1.nextId + 1, polarityDerived := false }
  match det with
  | some p =>
      ({ s2 with syncPolarity := p, polarityDerived := true },
       acts1 ++ [.ranDetection])
  | none => (s2, acts1 ++ [.ranDetection])

/-- Outcome of one `compileSources` call, covering the externally determined
results: the compiler produced no output, something threw (including the
intercepted `process.exit`), module init ran but polarity detection threw, or
init completed with the detected polarity. -/
inductive CompileOutcome where
  | compileFail (errText : String)
  | thrown (msg : String)
  | initThrown
  | initDone (warnings : Nat) (det : SyncPolarity)

/-- Embedded from `compileSources`: stop the running loop first, post the
compiling status, then branch on the outcome.  The synchronous first
`renderLoop` call made by `startSimulation` is modelled as the first `tick`
event after this step. -/
def compileSourcesStep (s : PanelState) (res : CompileOutcome) :
    PanelState × List PanelAct :=
  let s0 := stopSimulation s
  match res with
  | .compileFail t =>
      (s0, [.post (.statusMsg "Compiling..."),
            .post (.errorPost ("Compilation Error:\n" ++ t))])
  | .thrown msg =>
      (s0, [.post (.statusMsg "Compiling..."),
            .post (.errorPost ("Error: " ++ msg))])
  | .initThrown =>
      let r := initModuleStep s0 none
      (r.1, [.post (.statusMsg "Compiling...")] ++ r.2 ++
            [.post (.errorPost ("Error: " ++ errText .DetectionTimeout))])
  | .initDone warnings det =>
      let r := initModuleStep s0 (some det)
      let s2 := startSimulation r.1
      (s2, [.post (.statusMsg "Compiling...")] ++
           (if warnings = 0 then [] else [.post (.warnPopup warnings)]) ++ r.2 ++
           [.post (.statusMsg "Running")])

/-- Embedded from the webview `reset` message handler: when a module is bound,
reset / re-detect polarity / reset / skip to the frame boundary; a throwing
detection leaves the `syncPolarity` assignment unexecuted. -/
def resetMsgStep (s : PanelState) (det : Option SyncPolarity) :
    PanelState × List PanelAct :=
  match s.mod with
  | none => (s, [])
  | some _ =>
      match det with
      | some p => ({ s with syncPolarity := p, polarityDerived := true }, [.ranDetection])
      | none => (s, [.ranDetection])

/-- Embedded from `renderLoop`: return immediately unless running with a bound
module; otherwise render one frame into a fresh buffer — posting the whole
completed buffer on success, or posting a single error and stopping the loop
when the render throws. -/
def renderLoopStep (s : PanelState) (trace : Nat → VGASample) (budget : Nat) :
    PanelState × List PanelAct :=
  if s.running = false ∨ s.mod = none then (s, [])
  else
    match renderVGAFrame trace s.syncPolarity budget with
    | .error e =>
        ({ s with running := false },
         [.post (.errorPost ("Simulation error: " ++ errText e))])
    | .ok buf => (s, [.post (.framePost VGA_WIDTH VGA_HEIGHT buf)])

/-- Embedded from `dispose`: stop the loop, dispose the module and null the
reference. -/
def disposePanel (s : PanelState) : PanelState × List PanelAct :=
  match s.mod with
  | some i =>
      ({ s with running := false, mod := none, disposedIds := i :: s.disposedIds },
       [.disposeMod i])
  | none => ({ s with running := false }, [])

/-- Events driving the panel: a `compileSources` call, the webview `stop` and
`reset` messages, one `renderLoop` invocation, and panel disposal. -/
inductive PanelEvent where
  | compileSrc (res : CompileOutcome)
  | stopMsg
  | resetMsg (det : Option SyncPolarity)
  | tick (trace : Nat → VGASample) (budget : Nat)
  | disposeEvt

/-- One observable step of the panel. -/
def stepPanel (s : PanelState) : PanelEvent → PanelState × List PanelAct
  | .compileSrc res => compileSourcesStep s res
  | .stopMsg => (stopSimulation s, [])
  | .resetMsg det => resetMsgStep s det
  | .tick trace budget => renderLoopStep s trace budget
  | .disposeEvt => disposePanel s

/-- Panel states reachable from the freshly constructed panel. -/
inductive ReachablePanel : PanelState → Prop where
  | start : ReachablePanel initialPanel
  | step {s : PanelState} (e : PanelEvent) :
      ReachablePanel s → ReachablePanel (stepPanel s e).1

/-- Classification of a Verilator diagnostic line. -/
inductive DiagKind where
  | errKind
  | warnKind
deriving DecidableEq

/-- One structured Verilator diagnostic (the `ErrorParser` entry shape). -/
structure Diag where
  kind : DiagKind
  file : String
  line : Nat
  column : Nat
  message : String
deriving DecidableEq

/-- True for error-kind diagnostics (the filter on `e.type` in the source). -/
def isErrKind (d : Diag) : Bool :=
  match d.kind with
  | .errKind => true
  | .warnKind => false

/-- Result shape of `compileVerilator`: the collected diagnostics and the
parsed output when compilation succeeded. -/
structure CompileResult where
  errors : List Diag
  output : Option Nat
deriving DecidableEq

/-- Diagnostic pushed when `callMain` throws (embedded from `compile.ts`). -/
def crashDiag (msg : String) : Diag :=
  ⟨.errKind, "", 1, 1, "Compilation failed: " ++ msg⟩

/-- Diagnostic returned when reading or parsing the XML output throws
(embedded from `compile.ts`). -/
def xmlFailDiag (msg : String) : Diag :=
  ⟨.errKind, "", 1, 1, "XML parsing failed: " ++ msg⟩

/-- Embedded from `compileVerilator` in `compile.ts`.  Inputs are the
externally determined events of one run: the diagnostics parsed from the
stderr stream of the compiler, whether `callMain` threw (and with what message), and the
result of reading/parsing the XML output.  A `callMain` crash is converted to
a diagnostic; if any error-kind diagnostic exists the function returns the
errors without output; an XML failure is converted to a further diagnostic;
otherwise the parsed output is returned alongside the diagnostics. -/
def compileVerilator (stderrDiags : List Diag) (crash : Option String)
    (xml : Except String Nat) : CompileResult :=
  let errs := stderrDiags ++
    (match crash with
     | some m => [crashDiag m]
     | none => [])
  if (errs.filter isErrKind).length ≠ 0 then { errors := errs, output := none }
  else
    match xml with
    | .error m => { errors := errs ++ [xmlFailDiag m], output := none }
    | .ok out => { errors := errs, output := some out }

/-- Message of the interception shim installed over `process.exit` before
running the compiler (embedded from `compileSources`): the exit call is turned
into a thrown error instead of terminating the host. -/
def processExitMsg (code : Nat) : String :=
  "Verilator process.exit(" ++ toString code ++ ")"

/-- Module-table lookup (`modules[name]` in `initModule`). -/
def lookupMod : List (String × Nat) → String → Option Nat
  | [], _ => none
  | (q, v) :: t, k => if q = k then some v else lookupMod t k

/-- Embedded from `initModule` line 136: the lookup of `@CONST-POOL@` in the
module table with a fallback to `__Vconst`, which is `none` when both names
are absent. -/
def resolveConstPool (ms : List (String × Nat)) : Option Nat :=
  match lookupMod ms "@CONST-POOL@" with
  | some v => some v
  | none => lookupMod ms "__Vconst"

/-- The module constructed by `initModule` line 137: the top-level definition
and the constant pool actually passed to `HDLModuleWASM`. -/
structure ConstructedModule where
  topDef : Option Nat
  constPool : Option Nat
deriving DecidableEq

/-- Embedded from `initModule` lines 136-137: the constructor is invoked
unconditionally with whatever the constant-pool resolution produced. -/
def initModuleConstruct (ms : List (String × Nat)) : ConstructedModule :=
  { topDef := lookupMod ms "TOP", constPool := resolveConstPool ms }

/-- One node of the externally produced design description. -/
structure IRNode where
  name : String
  isTopLevel : Bool
  signalPaths : List String

/-- True when the path list contains a duplicate. -/
def hasDup : List String → Bool
  | [] => false
  | x :: t => t.contains x || hasDup t

/-- Modelled from the spec: the validation done by the IR Loader (`sim/vxmlparser` is
not in the snapshot).  It fails with `LoadError` when the number of nodes
flagged top-level differs from one or when a signal path collides with an
existing one, and otherwise returns the node graph. -/
def loadIR (nodes : List IRNode) : Except SimError (List IRNode) :=
  if (nodes.filter (fun n => n.isTopLevel)).length ≠ 1 then .error .LoadError
  else if hasDup ((nodes.map (fun n => n.signalPaths)).flatten) then .error .LoadError
  else .ok nodes

/-- Canonical post-reset signal state of the demo design. -/
def resetVals : List (String × Nat) := [("reset", 0), ("clk", 0), ("q", 0)]

/-- Demo design whose combinational function drives every signal to the
canonical post-reset state, a minimal design with deterministic initial
values. -/
def demoDesign : HDLDesign :=
  { width := fun _ => 1, comb := fun _ => resetVals,
    evalCap := 2, resetCycles := 1, hasReset := true }

/-- Trace whose vertical sync is asserted from the first cycle. -/
def traceVOn : Nat → VGASample := fun _ => ⟨false, true, 0, 0, 0⟩

/-- Trace whose sync signals never assert. -/
def traceNoSync : Nat → VGASample := fun _ => ⟨false, false, 0, 0, 0⟩

/-- Panel state with a bound module and the loop running, but whose polarity
field was never derived by detection. -/
def sBadPanel : PanelState :=
  { mod := some 0, running := true, polarityDerived := false,
    syncPolarity := ⟨false, false⟩, disposedIds := [], nextId := 1 }

/-- Panel state right after a successful compile and module init. -/
def panelAfterInit : PanelState :=
  (stepPanel initialPanel (.compileSrc (.initDone 0 ⟨false, false⟩))).1

/-- True for a posted frame message. -/
def isFrameAct : PanelAct → Bool
  | .post (.framePost _ _ _) => true
  | _ => false

/-- Auxiliary invariant for the module-lifecycle proof: the bound module id is
fresh and not disposed, and every disposed id is below the id counter. -/
def PanelInv (s : PanelState) : Prop :=
  (∀ i, s.mod = some i → i < s.nextId ∧ i ∉ s.disposedIds) ∧
  (∀ j ∈ s.disposedIds, j < s.nextId)

theorem lookupSig_setSig_self (vs : List (String × Nat)) (p : String) (v : Nat) :
    lookupSig (setSig vs p v) p = v := by
  induction vs with
  | nil => simp [setSig, lookupSig]
  | cons head tail ih =>
    obtain ⟨q, w⟩ := head
    by_cases h : q = p
    · simp [setSig, lookupSig, h]
    · simp [setSig, lookupSig, h, ih]

/-- C8: for every signal path and value, a write followed immediately by a
read returns the value masked to the declared bit width of the path. -/
theorem set_get_roundtrip (m : SimInstance) (p : String) (v : Nat) :
    getSignal (setSignal m p v) p = v % 2 ^ m.design.width p := by
  simp [getSignal, setSignal, lookupSig_setSig_self]

/-- C9: combinational settling always terminates, returning either a settled
state (a fixpoint of the combinational update) or `ConvergenceError` once the
iteration cap is exceeded; in particular the self-loop inverter fixture yields
`ConvergenceError` for every cap. -/
theorem eval_settles_or_convergence_error :
    (∀ (σ : Type) (inst : DecidableEq σ) (f : σ → σ) (cap : Nat) (s : σ),
        (∃ t, @evalSettle σ inst f cap s = .ok t ∧ f t = t) ∨
        @evalSettle σ inst f cap s = .error .ConvergenceError) ∧
    (∀ (cap : Nat) (b : Bool), evalSettle selfLoopNot cap b = .error .ConvergenceError) := by
  constructor
  · intro σ inst f cap
    induction cap with
    | zero => intro s; right; rfl
    | succ n ih =>
      intro s
      by_cases h : f s = s
      · left; exact ⟨s, by simp [evalSettle, h], h⟩
      · have : @evalSettle σ inst f (n + 1) s = @evalSettle σ inst f n (f s) := by
          simp [evalSettle, h]
        rw [this]; exact ih (f s)
  · intro cap
    induction cap with
    | zero => intro b; rfl
    | succ n ih =>
      intro b
      have h : ¬ selfLoopNot b = b := by cases b <;> simp [selfLoopNot]
      have : evalSettle selfLoopNot (n + 1) b = evalSettle selfLoopNot n (selfLoopNot b) := by
        simp [evalSettle, h]
      rw [this]; exact ih (selfLoopNot b)

/-- C2: when either synchronization signal shows no toggling across the
sampled cycle budget, polarity detection results in a `DetectionTimeout`
error and never an `ok` polarity value — no default guess is substituted.
Moreover, on the panel path where detection throws during module init, the
panel ends up not running and with no derived polarity. -/
theorem no_toggle_detection_timeout (hsamples vsamples : List Bool)
    (h : noToggle hsamples = true ∨ noToggle vsamples = true) :
    detectSyncPolarity hsamples vsamples = .error .DetectionTimeout ∧
    (∀ p, detectSyncPolarity hsamples vsamples ≠ .ok p) ∧
    (∀ s : PanelState,
        (stepPanel s (.compileSrc .initThrown)).1.polarityDerived = false ∧
        (stepPanel s (.compileSrc .initThrown)).1.running = false) := by
  have main : detectSyncPolarity hsamples vsamples = .error .DetectionTimeout := by
    rcases h with h | h
    · simp [detectSyncPolarity, classifyPolarity, h]
    · by_cases hh : noToggle hsamples = true
      · simp [detectSyncPolarity, classifyPolarity, hh]
      · simp [detectSyncPolarity, classifyPolarity, hh, h]
  refine ⟨main, ?_, fun s => ?_⟩
  · intro p hp
    rw [main] at hp
    cases hp
  · cases hm : s.mod <;>
      simp [stepPanel, compileSourcesStep, initModuleStep, stopSimulation, hm]

/-- Witness for C2 at a concrete pair of sample lists. -/
theorem no_toggle_detection_timeout_witness :
    (noToggle [true, true] = true ∨ noToggle [false, true, false] = true) ∧
    (detectSyncPolarity [true, true] [false, true, false] = .error .DetectionTimeout ∧
     (∀ p, detectSyncPolarity [true, true] [false, true, false] ≠ .ok p) ∧
     (∀ s : PanelState,
        (stepPanel s (.compileSrc .initThrown)).1.polarityDerived = false ∧
        (stepPanel s (.compileSrc .initThrown)).1.running = false)) :=
  ⟨Or.inl (by decide),
   no_toggle_detection_timeout [true, true] [false, true, false] (Or.inl (by decide))⟩

/-- Counterexample for C5: with a module table containing only `TOP`, the
constant pool cannot be resolved, yet `initModule` still constructs the
module, passing `none` as the pool — no `LoadError` is raised at this point. -/
theorem constpool_unresolved_still_builds :
    resolveConstPool [("TOP", 0)] = none ∧
    initModuleConstruct [("TOP", 0)] =
      { topDef := some 0, constPool := none } := by
  constructor <;> rfl

/-- C5 (amended): the loader rejects designs with zero or several top-level
nodes and designs with colliding signal paths via `LoadError`, but an
unresolvable constant pool is not rejected — `initModule` constructs the
module with an absent pool. -/
theorem load_error_conditions :
    (∀ nodes : List IRNode,
        (nodes.filter (fun n => n.isTopLevel)).length ≠ 1 →
        loadIR nodes = .error .LoadError) ∧
    (∀ nodes : List IRNode,
        hasDup ((nodes.map (fun n => n.signalPaths)).flatten) = true →
        loadIR nodes = .error .LoadError) ∧
    (∀ ms : List (String × Nat), resolveConstPool ms = none →
        initModuleConstruct ms = { topDef := lookupMod ms "TOP", constPool := none }) := by
  refine ⟨fun nodes h => ?_, fun nodes h => ?_, fun ms h => ?_⟩
  · simp [loadIR, h]
  · by_cases h1 : (nodes.filter (fun n => n.isTopLevel)).length = 1
    · simp [loadIR, h1, h]
    · simp [loadIR, h1]
  · simp [initModuleConstruct, h]

/-- Witness for the amended theorem of C5 at concrete inputs. -/
theorem load_error_conditions_witness :
    ((List.filter (fun n => n.isTopLevel) ([] : List IRNode)).length ≠ 1 ∧
     loadIR [] = .error .LoadError) ∧
    (hasDup (([⟨"top", true, ["a", "a"]⟩] : List IRNode).map
        (fun n => n.signalPaths)).flatten = true ∧
     loadIR [⟨"top", true, ["a", "a"]⟩] = .error .LoadError) ∧
    (resolveConstPool [("TOP", 0)] = none ∧
     initModuleConstruct [("TOP", 0)] =
       { topDef := lookupMod [("TOP", 0)] "TOP", constPool := none }) :=
  ⟨⟨by decide, load_error_conditions.1 [] (by decide)⟩,
   ⟨by decide, load_error_conditions.2.1 [⟨"top", true, ["a", "a"]⟩] (by decide)⟩,
   ⟨by decide, load_error_conditions.2.2 [("TOP", 0)] (by decide)⟩⟩

/-- C6: every failure of the external compilation step becomes a structured
diagnostic: a `callMain` crash and an XML-parse failure are converted to
error-kind entries, `compileVerilator` returns output exactly when no
error-kind diagnostic was produced, and a compiler-initiated `process.exit` is
intercepted as a thrown error that `compileSources` converts to a posted
error message rather than terminating the host. -/
theorem compile_failures_structured :
    (∀ (d : List Diag) (c : Option String) (x : Except String Nat),
        (compileVerilator d c x).output.isSome = true ↔
        (compileVerilator d c x).errors.filter isErrKind = []) ∧
    (∀ (d : List Diag) (m : String) (x : Except String Nat),
        crashDiag m ∈ (compileVerilator d (some m) x).errors ∧
        (compileVerilator d (some m) x).output = none) ∧
    (∀ (d : List Diag) (m : String), d.filter isErrKind = [] →
        xmlFailDiag m ∈ (compileVerilator d none (.error m)).errors ∧
        (compileVerilator d none (.error m)).output = none) ∧
    (∀ (s : PanelState) (code : Nat),
        stepPanel s (.compileSrc (.thrown (processExitMsg code))) =
          (stopSimulation s,
           [.post (.statusMsg "Compiling..."),
            .post (.errorPost ("Error: " ++ processExitMsg code))])) := by
  refine ⟨fun d c x => ?_, fun d m x => ?_, fun d m h => ?_, fun s code => rfl⟩
  · rcases c with _ | m
    · by_cases h : (d.filter isErrKind).length = 0
      · have hnil : d.filter isErrKind = [] := List.length_eq_zero.mp h
        cases x with
        | error mm =>
          simp [compileVerilator, List.filter_append, hnil, xmlFailDiag, isErrKind]
        | ok out =>
          simp [compileVerilator, List.filter_append, hnil]
      · have hne : d.filter isErrKind ≠ [] := by
          intro hc
          exact h (by rw [hc]; rfl)
        simp [compileVerilator, h, hne]
    · simp [compileVerilator, List.filter_append, crashDiag, isErrKind]
  · constructor
    · simp only [compileVerilator]
      split
      · simp
      · split <;> simp
    · simp only [compileVerilator]
      have hlen : ((d ++ [crashDiag m]).filter isErrKind).length ≠ 0 := by
        simp [List.filter_append, crashDiag, isErrKind]
      rw [if_pos hlen]
  · constructor
    · simp [compileVerilator, List.filter_append, h, isErrKind, crashDiag, xmlFailDiag]
    · simp [compileVerilator, List.filter_append, h, isErrKind, crashDiag, xmlFailDiag]

/-- Witness for C6 at concrete inputs. -/
theorem compile_failures_structured_witness :
    ((compileVerilator [] none (.ok 7)).output.isSome = true ↔
     (compileVerilator [] none (.ok 7)).errors.filter isErrKind = []) ∧
    (crashDiag "boom" ∈ (compileVerilator [] (some "boom") (.ok 7)).errors ∧
     (compileVerilator [] (some "boom") (.ok 7)).output = none) ∧
    (([] : List Diag).filter isErrKind = [] ∧
     xmlFailDiag "bad xml" ∈ (compileVerilator [] none (.error "bad xml")).errors ∧
     (compileVerilator [] none (.error "bad xml")).output = none) ∧
    (stepPanel sBadPanel (.compileSrc (.thrown (processExitMsg 1))) =
      (stopSimulation sBadPanel,
       [.post (.statusMsg "Compiling..."),
        .post (.errorPost ("Error: " ++ processExitMsg 1))])) :=
  ⟨compile_failures_structured.1 [] none (.ok 7),
   compile_failures_structured.2.1 [] "boom" (.ok 7),
   ⟨by decide, compile_failures_structured.2.2.1 [] "bad xml" (by decide)⟩,
   compile_failures_structured.2.2.2 sBadPanel 1⟩

/-- C7: reset() is idempotent — on a design with deterministic initial values
(holding reset drives the signal state to one canonical post-reset state from
anywhere), the state after one reset() equals the state after two consecutive
reset() calls. -/
theorem reset_idempotent (m : SimInstance) (h : ResetConvergent m.design) :
    (resetModule m).bind resetModule = resetModule m := by
  obtain ⟨r, hr⟩ := h
  have h1 : resetModule m = .ok ⟨m.design, r⟩ := hr m.values
  rw [h1]
  show resetModule ⟨m.design, r⟩ = .ok ⟨m.design, r⟩
  exact hr r

theorem demoDesign_resetConvergent : ResetConvergent demoDesign := by
  refine ⟨resetVals, fun vs => ?_⟩
  have h2 : ∀ w : List (String × Nat),
      evalSettle (fun _ => resetVals) 2 w = .ok resetVals := by
    intro w
    by_cases h : resetVals = w
    · subst h; simp [evalSettle]
    · simp [evalSettle, h]
  show resetModule ⟨demoDesign, vs⟩ = .ok ⟨demoDesign, resetVals⟩
  simp [resetModule, demoDesign, setSignal, iterCycles, clockCycle, clockEdge,
    evalInst, h2, Except.map, Bind.bind, Except.bind]

/-- Witness for C7 at a concrete instance of the demo design. -/
theorem reset_idempotent_witness :
    ResetConvergent (SimInstance.design ⟨demoDesign, []⟩) ∧
    (resetModule ⟨demoDesign, []⟩).bind resetModule = resetModule ⟨demoDesign, []⟩ :=
  ⟨demoDesign_resetConvergent,
   reset_idempotent ⟨demoDesign, []⟩ demoDesign_resetConvergent⟩

theorem writePixel_length (buf : List Nat) (idx r g b : Nat) :
    (writePixel buf idx r g b).length = buf.length := by
  simp [writePixel]

theorem writePixel_bytes (buf : List Nat) (idx r g b : Nat)
    (hb : ∀ x ∈ buf, x < 256) (h1 : r < 256) (h2 : g < 256) (h3 : b < 256) :
    ∀ x ∈ writePixel buf idx r g b, x < 256 := by
  intro x hx
  unfold writePixel at hx
  rcases List.mem_or_eq_of_mem_set hx with hx | rfl
  · rcases List.mem_or_eq_of_mem_set hx with hx | rfl
    · rcases List.mem_or_eq_of_mem_set hx with hx | rfl
      · rcases List.mem_or_eq_of_mem_set hx with hx | rfl
        · exact hb x hx
        · exact h1
      · exact h2
    · exact h3
  · decide

theorem renderAux_ok_length (trace : Nat → VGASample) (pol : SyncPolarity) :
    ∀ (fuel i : Nat) (st : RenderSt) (out : List Nat),
      renderAux trace pol fuel i st = .ok out → out.length = st.buf.length := by
  intro fuel
  induction fuel with
  | zero =>
    intro i st out h
    simp [renderAux] at h
  | succ n ih =>
    intro i st out h
    simp only [renderAux] at h
    split at h
    · simp only [Except.ok.injEq] at h
      rw [← h]
    · have hlen := ih (i + 1) _ out h
      rw [hlen]
      simp only
      split <;> split <;>
        first
          | exact writePixel_length _ _ _ _ _
          | rfl

theorem renderAux_ok_bytes (trace : Nat → VGASample) (pol : SyncPolarity) :
    ∀ (fuel i : Nat) (st : RenderSt) (out : List Nat),
      (∀ x ∈ st.buf, x < 256) →
      renderAux trace pol fuel i st = .ok out → ∀ x ∈ out, x < 256 := by
  intro fuel
  induction fuel with
  | zero =>
    intro i st out _ h
    simp [renderAux] at h
  | succ n ih =>
    intro i st out hb h
    simp only [renderAux] at h
    split at h
    · simp only [Except.ok.injEq] at h
      rw [← h]; exact hb
    · refine ih (i + 1) _ out ?_ h
      simp only
      split <;> split <;>
        first
          | exact writePixel_bytes _ _ _ _ _ hb (Nat.mod_lt _ (by decide))
              (Nat.mod_lt _ (by decide)) (Nat.mod_lt _ (by decide))
          | exact hb

theorem renderVGAFrame_ok_length (trace : Nat → VGASample) (pol : SyncPolarity)
    (budget : Nat) (buf : List Nat) (h : renderVGAFrame trace pol budget = .ok buf) :
    buf.length = VGA_WIDTH * VGA_HEIGHT * 4 := by
  have hl := renderAux_ok_length trace pol budget 0 _ buf h
  simpa using hl

theorem renderVGAFrame_ok_bytes (trace : Nat → VGASample) (pol : SyncPolarity)
    (budget : Nat) (buf : List Nat) (h : renderVGAFrame trace pol budget = .ok buf) :
    ∀ x ∈ buf, x < 256 := by
  refine renderAux_ok_bytes trace pol budget 0 _ buf ?_ h
  intro x hx
  simp only [List.mem_replicate] at hx
  rw [hx.2]; decide

/-- C1: one `renderLoop` invocation is atomic.  Either the render succeeds and
exactly one complete frame — a byte buffer of exactly
`VGA_WIDTH * VGA_HEIGHT * 4` entries, each below 256 — is posted whole to the
display, or the render raises one error and exactly one error message (and no
frame) is posted while the loop stops, or the guard fires and nothing is
posted; a partially filled buffer is never delivered. -/
theorem render_call_atomic (s : PanelState) (trace : Nat → VGASample) (budget : Nat) :
    (∃ buf, renderVGAFrame trace s.syncPolarity budget = .ok buf ∧
        buf.length = VGA_WIDTH * VGA_HEIGHT * 4 ∧
        (∀ x ∈ buf, x < 256) ∧
        (stepPanel s (.tick trace budget)).2 =
          [.post (.framePost VGA_WIDTH VGA_HEIGHT buf)] ∧
        (stepPanel s (.tick trace budget)).1 = s) ∨
    (∃ e, renderVGAFrame trace s.syncPolarity budget = .error e ∧
        (stepPanel s (.tick trace budget)).2 =
          [.post (.errorPost ("Simulation error: " ++ errText e))] ∧
        (stepPanel s (.tick trace budget)).1 = { s with running := false }) ∨
    ((s.running = false ∨ s.mod = none) ∧
        (stepPanel s (.tick trace budget)).2 = [] ∧
        (stepPanel s (.tick trace budget)).1 = s) := by
  by_cases hg : s.running = false ∨ s.mod = none
  · right; right
    exact ⟨hg, by simp [stepPanel, renderLoopStep, hg], by simp [stepPanel, renderLoopStep, hg]⟩
  · cases hx : renderVGAFrame trace s.syncPolarity budget with
    | ok buf =>
      left
      exact ⟨buf, rfl, renderVGAFrame_ok_length trace s.syncPolarity budget buf hx,
        renderVGAFrame_ok_bytes trace s.syncPolarity budget buf hx,
        by simp [stepPanel, renderLoopStep, hg, hx],
        by simp [stepPanel, renderLoopStep, hg, hx]⟩
    | error e =>
      right; left
      exact ⟨e, rfl,
        by simp [stepPanel, renderLoopStep, hg, hx],
        by simp [stepPanel, renderLoopStep, hg, hx]⟩

theorem initModuleStep_fst_running (s : PanelState) (det : Option SyncPolarity) :
    (initModuleStep s det).1.running = s.running := by
  cases det <;> cases hs : s.mod <;> simp [initModuleStep, hs]

theorem initModuleStep_some_derived (s : PanelState) (p : SyncPolarity) :
    (initModuleStep s (some p)).1.polarityDerived = true := by
  cases hs : s.mod <;> simp [initModuleStep, hs]

theorem startSimulation_derived (s : PanelState) :
    (startSimulation s).polarityDerived = s.polarityDerived := by
  unfold startSimulation
  split <;> rfl

theorem running_implies_derived {s : PanelState} (h : ReachablePanel s) :
    s.running = true → s.polarityDerived = true := by
  induction h with
  | start => intro hc; simp [initialPanel] at hc
  | step e hprev ih =>
    rename_i s0
    cases e with
    | compileSrc res =>
      cases res with
      | compileFail t =>
        intro hc; simp [stepPanel, compileSourcesStep, stopSimulation] at hc
      | thrown m =>
        intro hc; simp [stepPanel, compileSourcesStep, stopSimulation] at hc
      | initThrown =>
        intro hc
        rw [show (stepPanel s0 (.compileSrc .initThrown)).1 =
            (initModuleStep (stopSimulation s0) none).1 from rfl,
          initModuleStep_fst_running] at hc
        simp [stopSimulation] at hc
      | initDone w det =>
        intro _
        rw [show (stepPanel s0 (.compileSrc (.initDone w det))).1 =
            startSimulation (initModuleStep (stopSimulation s0) (some det)).1 from rfl,
          startSimulation_derived, initModuleStep_some_derived]
    | stopMsg =>
      intro hc; simp [stepPanel, stopSimulation] at hc
    | resetMsg det =>
      cases hm : s0.mod with
      | none => simpa [stepPanel, resetMsgStep, hm] using ih
      | some i =>
        cases det with
        | none => simpa [stepPanel, resetMsgStep, hm] using ih
        | some p => simp [stepPanel, resetMsgStep, hm]
    | tick trace budget =>
      by_cases hg : s0.running = false ∨ s0.mod = none
      · simpa [stepPanel, renderLoopStep, hg] using ih
      · cases hx : renderVGAFrame trace s0.syncPolarity budget with
        | ok buf => simpa [stepPanel, renderLoopStep, hg, hx] using ih
        | error e =>
          intro hc
          simp [stepPanel, renderLoopStep, hg, hx] at hc
    | disposeEvt =>
      intro hc
      cases hm : s0.mod <;> simp [stepPanel, disposePanel, hm] at hc

/-- C3 (amended): in every reachable panel state, a `renderLoop` invocation
that posts a frame does so with an already-derived sync polarity, and the
render call itself never runs polarity detection — detection and
frame-boundary synchronization happen during module initialization (and on
the reset message), before the simulation loop starts. -/
theorem polarity_established_before_render (s : PanelState) (trace : Nat → VGASample)
    (budget : Nat) (hs : ReachablePanel s) :
    (∀ w h buf, PanelAct.post (.framePost w h buf) ∈ (stepPanel s (.tick trace budget)).2 →
        s.polarityDerived = true) ∧
    PanelAct.ranDetection ∉ (stepPanel s (.tick trace budget)).2 := by
  constructor
  · intro w h buf hmem
    by_cases hg : s.running = false ∨ s.mod = none
    · simp [stepPanel, renderLoopStep, hg] at hmem
    · have hrun : s.running = true := by
        rcases Bool.eq_false_or_eq_true s.running with hr | hr
        · exact hr
        · exact absurd (Or.inl hr) hg
      exact running_implies_derived hs hrun
  · by_cases hg : s.running = false ∨ s.mod = none
    · simp [stepPanel, renderLoopStep, hg]
    · cases hx : renderVGAFrame trace s.syncPolarity budget with
      | ok buf => simp [stepPanel, renderLoopStep, hg, hx]
      | error e => simp [stepPanel, renderLoopStep, hg, hx]

/-- Witness for the amended theorem of C3 at a concrete reachable state. -/
theorem polarity_established_witness :
    (∀ w h buf, PanelAct.post (.framePost w h buf) ∈
        (stepPanel panelAfterInit (.tick traceVOn 5)).2 →
        panelAfterInit.polarityDerived = true) ∧
    PanelAct.ranDetection ∉ (stepPanel panelAfterInit (.tick traceVOn 5)).2 :=
  polarity_established_before_render panelAfterInit traceVOn 5
    (ReachablePanel.step (.compileSrc (.initDone 0 ⟨false, false⟩)) ReachablePanel.start)

/-- Counterexample for C3 as stated: on a panel state whose polarity was never
derived, a render call samples and delivers a whole frame without triggering
any polarity detection or frame-boundary synchronization — the render call
itself performs no detection. -/
theorem render_without_detection_cex :
    sBadPanel.polarityDerived = false ∧
    (stepPanel sBadPanel (.tick traceVOn 5)).2 =
      [PanelAct.post (.framePost VGA_WIDTH VGA_HEIGHT
        (List.replicate (VGA_WIDTH * VGA_HEIGHT * 4) 0))] ∧
    PanelAct.ranDetection ∉ (stepPanel sBadPanel (.tick traceVOn 5)).2 := by
  have hr : renderVGAFrame traceVOn sBadPanel.syncPolarity 5 =
      .ok (List.replicate (VGA_WIDTH * VGA_HEIGHT * 4) 0) := rfl
  have hmsgs : (stepPanel sBadPanel (.tick traceVOn 5)).2 =
      [PanelAct.post (.framePost VGA_WIDTH VGA_HEIGHT
        (List.replicate (VGA_WIDTH * VGA_HEIGHT * 4) 0))] := by
    have hg : ¬ (sBadPanel.running = false ∨ sBadPanel.mod = none) := by
      simp [sBadPanel]
    simp [stepPanel, renderLoopStep, hg, hr]
  refine ⟨rfl, hmsgs, ?_⟩
  rw [hmsgs]
  simp

/-- C4: at most one frame render is ever in flight.  Starting the simulation
while it is already running is an exact no-op; each `renderLoop` invocation
posts at most one frame, completing it (or erroring) before anything else can
run; and after an errored render the loop is stopped, so a subsequent
invocation does nothing. -/
theorem single_render_in_flight :
    (∀ s : PanelState, s.running = true → startSimulation s = s) ∧
    (∀ (s : PanelState) (trace : Nat → VGASample) (budget : Nat),
        ((stepPanel s (.tick trace budget)).2.filter isFrameAct).length ≤ 1) ∧
    (∀ (s : PanelState) (trace : Nat → VGASample) (budget : Nat) (e : SimError),
        s.running = true → s.mod ≠ none →
        renderVGAFrame trace s.syncPolarity budget = .error e →
        (stepPanel s (.tick trace budget)).1.running = false ∧
        ∀ (trace2 : Nat → VGASample) (budget2 : Nat),
          (stepPanel (stepPanel s (.tick trace budget)).1 (.tick trace2 budget2)).2 = []) := by
  refine ⟨fun s h => ?_, fun s trace budget => ?_, fun s trace budget e h1 h2 hx => ?_⟩
  · simp [startSimulation, h]
  · by_cases hg : s.running = false ∨ s.mod = none
    · simp [stepPanel, renderLoopStep, hg]
    · cases hx : renderVGAFrame trace s.syncPolarity budget with
      | ok buf => simp [stepPanel, renderLoopStep, hg, hx, isFrameAct]
      | error e => simp [stepPanel, renderLoopStep, hg, hx, isFrameAct]
  · have hg : ¬ (s.running = false ∨ s.mod = none) := by
      simp [h1, h2]
    constructor
    · simp [stepPanel, renderLoopStep, hg, hx]
    · intro trace2 budget2
      simp [stepPanel, renderLoopStep, hg, hx]

/-- Witness for C4 at concrete states and traces. -/
theorem single_render_in_flight_witness :
    (sBadPanel.running = true ∧ startSimulation sBadPanel = sBadPanel) ∧
    ((stepPanel sBadPanel (.tick traceVOn 5)).2.filter isFrameAct).length ≤ 1 ∧
    ((stepPanel sBadPanel (.tick traceNoSync 3)).1.running = false ∧
     ∀ (trace2 : Nat → VGASample) (budget2 : Nat),
       (stepPanel (stepPanel sBadPanel (.tick traceNoSync 3)).1
         (.tick trace2 budget2)).2 = []) :=
  ⟨⟨rfl, single_render_in_flight.1 sBadPanel rfl⟩,
   single_render_in_flight.2.1 sBadPanel traceVOn 5,
   single_render_in_flight.2.2 sBadPanel traceNoSync 3 .DetectionTimeout rfl
     (by simp [sBadPanel]) rfl⟩

theorem initModuleStep_fields_none (s : PanelState) (det : Option SyncPolarity)
    (hm : s.mod = none) :
    (initModuleStep s det).1.nextId = s.nextId + 1 ∧
    (initModuleStep s det).1.mod = some s.nextId ∧
    (initModuleStep s det).1.disposedIds = s.disposedIds := by
  cases det <;> simp [initModuleStep, hm]

theorem initModuleStep_fields_some (s : PanelState) (det : Option SyncPolarity)
    (k : Nat) (hm : s.mod = some k) :
    (initModuleStep s det).1.nextId = s.nextId + 1 ∧
    (initModuleStep s det).1.mod = some s.nextId ∧
    (initModuleStep s det).1.disposedIds = k :: s.disposedIds := by
  cases det <;> simp [initModuleStep, hm]

theorem panelInv_initModuleStep (s : PanelState) (det : Option SyncPolarity)
    (h : PanelInv s) : PanelInv (initModuleStep s det).1 := by
  obtain ⟨h1, h2⟩ := h
  cases hm : s.mod with
  | none =>
    obtain ⟨hn, hmod, hd⟩ := initModuleStep_fields_none s det hm
    refine ⟨fun i hi => ?_, fun j hj => ?_⟩
    · rw [hmod] at hi
      injection hi with hi
      subst hi
      rw [hn, hd]
      refine ⟨Nat.lt_succ_self _, fun hc => ?_⟩
      exact absurd (h2 _ hc) (Nat.lt_irrefl _)
    · rw [hd] at hj
      rw [hn]
      exact Nat.lt_succ_of_lt (h2 _ hj)
  | some k =>
    obtain ⟨hk1, hk2⟩ := h1 k hm
    obtain ⟨hn, hmod, hd⟩ := initModuleStep_fields_some s det k hm
    refine ⟨fun i hi => ?_, fun j hj => ?_⟩
    · rw [hmod] at hi
      injection hi with hi
      subst hi
      rw [hn, hd]
      refine ⟨Nat.lt_succ_self _, fun hc => ?_⟩
      rcases List.mem_cons.mp hc with hc | hc
      · omega
      · exact absurd (h2 _ hc) (Nat.lt_irrefl _)
    · rw [hd] at hj
      rw [hn]
      rcases List.mem_cons.mp hj with hj | hj
      · omega
      · exact Nat.lt_succ_of_lt (h2 _ hj)

theorem panelInv_startSimulation (s : PanelState) (h : PanelInv s) :
    PanelInv (startSimulation s) := by
  unfold startSimulation
  split
  · exact h
  · exact ⟨h.1, h.2⟩

theorem panelInv_step (s : PanelState) (e : PanelEvent) (h : PanelInv s) :
    PanelInv (stepPanel s e).1 := by
  obtain ⟨h1, h2⟩ := h
  cases e with
  | compileSrc res =>
    cases res with
    | compileFail t => exact ⟨h1, h2⟩
    | thrown m => exact ⟨h1, h2⟩
    | initThrown => exact panelInv_initModuleStep _ none ⟨h1, h2⟩
    | initDone w det =>
      exact panelInv_startSimulation _ (panelInv_initModuleStep _ (some det) ⟨h1, h2⟩)
  | stopMsg => exact ⟨h1, h2⟩
  | resetMsg det =>
    cases hm : s.mod with
    | none =>
      have hst : (stepPanel s (.resetMsg det)).1 = s := by
        simp [stepPanel, resetMsgStep, hm]
      rw [hst]
      exact ⟨h1, h2⟩
    | some i =>
      cases det with
      | none =>
        have hst : (stepPanel s (.resetMsg none)).1 = s := by
          simp [stepPanel, resetMsgStep, hm]
        rw [hst]
        exact ⟨h1, h2⟩
      | some p =>
        have hst : (stepPanel s (.resetMsg (some p))).1 =
            { s with syncPolarity := p, polarityDerived := true } := by
          simp [stepPanel, resetMsgStep, hm]
        rw [hst]
        exact ⟨h1, h2⟩
  | tick trace budget =>
    by_cases hg : s.running = false ∨ s.mod = none
    · have hst : (stepPanel s (.tick trace budget)).1 = s := by
        simp [stepPanel, renderLoopStep, hg]
      rw [hst]
      exact ⟨h1, h2⟩
    · cases hx : renderVGAFrame trace s.syncPolarity budget with
      | ok buf =>
        have hst : (stepPanel s (.tick trace budget)).1 = s := by
          simp [stepPanel, renderLoopStep, hg, hx]
        rw [hst]
        exact ⟨h1, h2⟩
      | error e =>
        have hst : (stepPanel s (.tick trace budget)).1 = { s with running := false } := by
          simp [stepPanel, renderLoopStep, hg, hx]
        rw [hst]
        exact ⟨h1, h2⟩
  | disposeEvt =>
    cases hm : s.mod with
    | none =>
      have hst : (stepPanel s .disposeEvt).1 = { s with running := false } := by
        simp [stepPanel, disposePanel, hm]
      rw [hst]
      exact ⟨h1, h2⟩
    | some i =>
      have hst : (stepPanel s .disposeEvt).1 =
          { s with running := false, mod := none, disposedIds := i :: s.disposedIds } := by
        simp [stepPanel, disposePanel, hm]
      rw [hst]
      refine ⟨fun j hj => ?_, fun j hj => ?_⟩
      · simp at hj
      · rcases List.mem_cons.mp hj with hj | hj
        · subst hj
          exact (h1 j hm).1
        · exact h2 _ hj

theorem reachable_panelInv {s : PanelState} (h : ReachablePanel s) : PanelInv s := by
  induction h with
  | start =>
    refine ⟨fun i hi => ?_, fun j hj => ?_⟩
    · simp [initialPanel] at hi
    · simp [initialPanel] at hj
  | step e hprev ih => exact panelInv_step _ e ih

/-- C10: the panel holds at most one live compiled module.  `initModule`
disposes the previous module before binding a fresh one; `compileSources`
stops the render loop first and only a fully successful init restarts it;
panel disposal stops the loop, disposes the module and nulls the reference;
and in every reachable state the bound module has never been disposed, so no
operation acts on a disposed or superseded module. -/
theorem one_live_module :
    (∀ (s : PanelState) (det : Option SyncPolarity) (i : Nat), s.mod = some i →
        (initModuleStep s det).1.mod = some s.nextId ∧
        i ∈ (initModuleStep s det).1.disposedIds ∧
        PanelAct.disposeMod i ∈ (initModuleStep s det).2) ∧
    (∀ (s : PanelState) (res : CompileOutcome),
        (stepPanel s (.compileSrc res)).1.running = true →
        ∃ w det, res = .initDone w det) ∧
    (∀ s : PanelState,
        (stepPanel s .disposeEvt).1.running = false ∧
        (stepPanel s .disposeEvt).1.mod = none ∧
        (∀ i, s.mod = some i →
          i ∈ (stepPanel s .disposeEvt).1.disposedIds ∧
          PanelAct.disposeMod i ∈ (stepPanel s .disposeEvt).2)) ∧
    (∀ s : PanelState, ReachablePanel s →
        ∀ i, s.mod = some i → i ∉ s.disposedIds) := by
  refine ⟨fun s det i hm => ?_, fun s res h => ?_, fun s => ?_, fun s hs i hi => ?_⟩
  · obtain ⟨hn, hmod, hd⟩ := initModuleStep_fields_some s det i hm
    refine ⟨hmod, by rw [hd]; exact List.mem_cons_self _ _, ?_⟩
    cases det <;> simp [initModuleStep, hm]
  · cases res with
    | compileFail t =>
      simp [stepPanel, compileSourcesStep, stopSimulation] at h
    | thrown m =>
      simp [stepPanel, compileSourcesStep, stopSimulation] at h
    | initThrown =>
      rw [show (stepPanel s (.compileSrc .initThrown)).1 =
          (initModuleStep (stopSimulation s) none).1 from rfl,
        initModuleStep_fst_running] at h
      simp [stopSimulation] at h
    | initDone w det => exact ⟨w, det, rfl⟩
  · cases hm : s.mod with
    | none =>
      have hst : stepPanel s .disposeEvt = ({ s with running := false }, []) := by
        simp [stepPanel, disposePanel, hm]
      rw [hst]
      refine ⟨rfl, hm, fun i hi => ?_⟩
      simp at hi
    | some k =>
      have hst : stepPanel s .disposeEvt =
          ({ s with running := false, mod := none, disposedIds := k :: s.disposedIds },
           [.disposeMod k]) := by
        simp [stepPanel, disposePanel, hm]
      rw [hst]
      refine ⟨rfl, rfl, fun i hi => ?_⟩
      injection hi with hi
      subst hi
      exact ⟨List.mem_cons_self _ _, List.mem_singleton.mpr rfl⟩
  · exact ((reachable_panelInv hs).1 i hi).2

/-- Witness for C10 at concrete states. -/
theorem one_live_module_witness :
    (sBadPanel.mod = some 0 ∧
     (initModuleStep sBadPanel none).1.mod = some sBadPanel.nextId ∧
     0 ∈ (initModuleStep sBadPanel none).1.disposedIds ∧
     PanelAct.disposeMod 0 ∈ (initModuleStep sBadPanel none).2) ∧
    ((stepPanel initialPanel (.compileSrc (.initDone 0 ⟨false, false⟩))).1.running = true ∧
     ∃ w det, (CompileOutcome.initDone 0 (⟨false, false⟩ : SyncPolarity)) =
       .initDone w det) ∧
    ((stepPanel sBadPanel .disposeEvt).1.running = false ∧
     (stepPanel sBadPanel .disposeEvt).1.mod = none ∧
     (∀ i, sBadPanel.mod = some i →
       i ∈ (stepPanel sBadPanel .disposeEvt).1.disposedIds ∧
       PanelAct.disposeMod i ∈ (stepPanel sBadPanel .disposeEvt).2)) ∧
    (panelAfterInit.mod = some 0 ∧ 0 ∉ panelAfterInit.disposedIds) :=
  ⟨⟨rfl, one_live_module.1 sBadPanel none 0 rfl⟩,
   ⟨rfl, one_live_module.2.1 initialPanel (.initDone 0 ⟨false, false⟩) rfl⟩,
   one_live_module.2.2.1 sBadPanel,
   ⟨rfl, one_live_module.2.2.2 panelAfterInit
     (ReachablePanel.step (.compileSrc (.initDone 0 ⟨false, false⟩)) ReachablePanel.start)
     0 rfl⟩⟩
